import Mathlib

/-!
Verification development for the Open Images VRD challenge evaluation driver
(research/object_detection/metrics/oid_vrd_challenge_evaluation.py).

The driver script is embedded shallowly: Python dictionaries become
association lists with insertion-order semantics, the pandas `groupby`
becomes a sort-and-partition over image ids, and the side effects of `main`
(logger creation, file reads, evaluator ingestion calls, metric logging)
become an explicit event trace.  The collaborating modules that are not part
of the driver source (CSV parsing, the protobuf labelmap reader, the two VRD
evaluator classes and the bootstrap Logger) are abstracted as parameters or
modelled from the spec where noted.
-/

/-! ## Python dictionaries as insertion-ordered association lists -/

/-- Lookup in a Python-style dictionary: the value stored at key `k`, if any.
Keys are unique in a well-formed dictionary, so `find?` retrieves the entry. -/
def dget? {α β : Type} [DecidableEq α] (d : List (α × β)) (k : α) : Option β :=
  (d.find? (fun p => decide (p.1 = k))).map Prod.snd

/-- Assignment `d[k] = v` in a Python-style dictionary: if the key is present
its value is replaced in place (insertion order preserved), otherwise the new
entry is appended at the end, matching CPython insertion-order semantics. -/
def dinsert {α β : Type} [DecidableEq α] (d : List (α × β)) (k : α) (v : β) :
    List (α × β) :=
  if d.any (fun p => decide (p.1 = k)) then
    d.map (fun p => if p.1 = k then (k, v) else p)
  else
    d ++ [(k, v)]

theorem dinsert_of_not_mem_keys {α β : Type} [DecidableEq α]
    (d : List (α × β)) (k : α) (v : β) (h : k ∉ d.map Prod.fst) :
    dinsert d k v = d ++ [(k, v)] := by
  unfold dinsert
  rw [if_neg]
  simp only [List.any_eq_true, decide_eq_true_eq, not_exists, not_and]
  intro p hp hpk
  exact h (by simpa [hpk] using List.mem_map_of_mem Prod.fst hp)

theorem mem_of_dget?_eq_some {α β : Type} [DecidableEq α]
    {d : List (α × β)} {k : α} {v : β} (h : dget? d k = some v) : (k, v) ∈ d := by
  unfold dget? at h
  cases hf : d.find? (fun p => decide (p.1 = k)) with
  | none => rw [hf] at h; cases h
  | some p =>
    rw [hf] at h
    have hpk : p.1 = k := by simpa using List.find?_some hf
    have hpm : p ∈ d := List.mem_of_find?_eq_some hf
    have hpv : p.2 = v := by simpa using h
    have : p = (k, v) := Prod.ext hpk hpv
    rwa [this] at hpm

/-- Folding Python-dict insertions of pairwise-fresh keys appends the new
entries in iteration order.  The projection `f` lets the same lemma serve the
labelmap loader (`f = id`) and the comprehension that swaps keys with values
(`f = Prod.swap`). -/
theorem foldl_dinsert_eq_append {α β σ : Type} [DecidableEq β]
    (f : α → β × σ) :
    ∀ (l : List α) (acc : List (β × σ)),
      (l.map (fun a => (f a).1)).Nodup →
      (∀ a ∈ l, (f a).1 ∉ acc.map Prod.fst) →
      l.foldl (fun d a => dinsert d (f a).1 (f a).2) acc = acc ++ l.map f := by
  intro l
  induction l with
  | nil => intro acc _ _; simp
  | cons a t ih =>
    intro acc hnd hfresh
    have hcomp : (∀ x ∈ t, ¬(f x).1 = (f a).1) ∧
        (t.map (fun x => (f x).1)).Nodup := by
      simpa [List.nodup_cons] using hnd
    rw [List.foldl_cons,
      dinsert_of_not_mem_keys acc (f a).1 (f a).2 (hfresh a (List.mem_cons_self a t))]
    rw [ih (acc ++ [f a]) hcomp.2]
    · simp
    · intro b hb
      simp only [List.map_append, List.mem_append, List.map_cons, List.map_nil]
      rintro (hacc | hone)
      · exact hfresh b (List.mem_cons_of_mem a hb) hacc
      · simp at hone
        exact hcomp.1 b hb hone

/-! ## Labelmap loading and swapping (lines 51-80 of the driver) -/

/-- `_load_labelmap`: iterates the parsed labelmap items and stores
`item.name -> item.id` in a fresh dictionary.  The protobuf text parsing that
produces the item list is external to the driver; `items` stands for the
`label_map.item` sequence in file order. -/
def _load_labelmap (items : List (String × Int)) : List (String × Int) :=
  items.foldl (fun d it => dinsert d it.1 it.2) []

/-- `_swap_labelmap_dict`: the comprehension `{v: k for k, v in d.items()}`,
inserting the reversed pairs in iteration order so that for a repeated value
the later-enumerated key wins. -/
def _swap_labelmap_dict {α β : Type} [DecidableEq β] (d : List (α × β)) :
    List (β × α) :=
  d.foldl (fun acc kv => dinsert acc kv.2 kv.1) []

theorem _load_labelmap_of_nodup (items : List (String × Int))
    (h : (items.map Prod.fst).Nodup) : _load_labelmap items = items := by
  unfold _load_labelmap
  have := foldl_dinsert_eq_append (fun a : String × Int => a) items []
    (by simpa using h) (by simp)
  simpa using this

theorem _swap_labelmap_dict_eq_map_swap {α β : Type} [DecidableEq β]
    (d : List (α × β)) (h : (d.map Prod.snd).Nodup) :
    _swap_labelmap_dict d = d.map Prod.swap := by
  unfold _swap_labelmap_dict
  have := foldl_dinsert_eq_append (f := fun a : α × β => Prod.swap a) d []
    (by simpa [Prod.swap] using h) (by simp)
  simpa [Prod.swap] using this

/-! ## String helpers: `os.path.dirname`, `os.path.basename`,
`basename.split('.json')[0]` (lines 84-85 of the driver) -/

/-- Position just after the last `'/'` in the character list (the value of
`p.rfind('/') + 1` in `posixpath`), or `0` when no slash occurs. -/
def lastSlashEnd : List Char → Nat
  | [] => 0
  | c :: cs =>
    let r := lastSlashEnd cs
    if r = 0 then (if c = '/' then 1 else 0) else r + 1

/-- Remove trailing `'/'` characters (Python `str.rstrip('/')`). -/
def rstripSlashes (s : List Char) : List Char :=
  (s.reverse.dropWhile (fun c => decide (c = '/'))).reverse

/-- `posixpath.dirname`: the prefix up to the last slash, with trailing
slashes stripped unless the prefix consists solely of slashes. -/
def posixDirname (s : String) : String :=
  let cs := s.data
  let head := cs.take (lastSlashEnd cs)
  if head ≠ [] ∧ head.any (fun c => decide (c ≠ '/')) then
    String.mk (rstripSlashes head)
  else
    String.mk head

/-- `posixpath.basename`: the suffix after the last slash. -/
def posixBasename (s : String) : String :=
  String.mk (s.data.drop (lastSlashEnd s.data))

/-- The part of `s` before the first occurrence of the separator `sep`
(the head of Python `s.split(sep)` for a non-empty separator). -/
def splitHeadAux (sep : List Char) : List Char → List Char
  | [] => []
  | c :: cs => if sep.isPrefixOf (c :: cs) then [] else c :: splitHeadAux sep cs

/-- `basename.split('.json')[0]`, the run name derived by the driver. -/
def splitDotJsonHead (s : String) : String :=
  String.mk (splitHeadAux ".json".data s.data)

example : posixDirname "exp/run.json" = "exp" := by rfl
example : posixBasename "exp/run.json" = "run.json" := by rfl
example : splitDotJsonHead "run.json" = "run" := by rfl
example : splitDotJsonHead "run.json.old" = "run" := by rfl
example : posixDirname "/a" = "/" := by rfl
example : posixDirname "a" = "" := by rfl

/-! ## pandas `groupby('ImageID')`: sorted distinct keys, rows partitioned -/

/-- Code-point comparison of strings as character lists (the order Python
uses when pandas sorts group keys). -/
def charListLt : List Char → List Char → Bool
  | [], [] => false
  | [], _ :: _ => true
  | _ :: _, [] => false
  | a :: as, b :: bs =>
    if a.toNat < b.toNat then true
    else if b.toNat < a.toNat then false
    else charListLt as bs

def strLt (a b : String) : Bool := charListLt a.data b.data

/-- Insert into a sorted list of keys, keeping ascending code-point order. -/
def insertSorted (x : String) : List String → List String
  | [] => [x]
  | y :: ys => if strLt y x then y :: insertSorted x ys else x :: y :: ys

/-- Sort group keys ascending, as pandas `groupby` does by default. -/
def sortStrings (l : List String) : List String := l.foldr insertSorted []

theorem insertSorted_perm (x : String) (l : List String) :
    (insertSorted x l).Perm (x :: l) := by
  induction l with
  | nil => exact List.Perm.refl _
  | cons y ys ih =>
    unfold insertSorted
    by_cases h : strLt y x = true
    · rw [if_pos h]
      exact (ih.cons y).trans (List.Perm.swap x y ys)
    · rw [if_neg h]

theorem sortStrings_perm (l : List String) : (sortStrings l).Perm l := by
  induction l with
  | nil => exact List.Perm.refl _
  | cons x xs ih =>
    unfold sortStrings
    rw [List.foldr_cons]
    exact (insertSorted_perm x (sortStrings xs)).trans (ih.cons x)

theorem sortStrings_nodup {l : List String} (h : l.Nodup) :
    (sortStrings l).Nodup := ((sortStrings_perm l).nodup_iff).mpr h

/-- A row of one of the tabular inputs: the driver only ever inspects the
`ImageID` column, the remaining columns are the opaque payload `ρ` consumed
by the external dictionary builders. -/
structure Row (ρ : Type) where
  imageId : String
  payload : ρ
deriving DecidableEq

/-- `DataFrame.groupby('ImageID')`: one group per distinct image id, keys in
ascending order, each group holding that id's rows in original row order. -/
def groupbyImageId {ρ : Type} (rows : List (Row ρ)) :
    List (String × List (Row ρ)) :=
  (sortStrings (rows.map Row.imageId).dedup).map
    (fun k => (k, rows.filter (fun r => decide (r.imageId = k))))

theorem groupbyImageId_keys_nodup {ρ : Type} (rows : List (Row ρ)) :
    ((groupbyImageId rows).map Prod.fst).Nodup := by
  unfold groupbyImageId
  rw [List.map_map]
  have : (Prod.fst ∘ fun k =>
      (k, rows.filter (fun r => decide (r.imageId = k)))) = id := rfl
  rw [this, List.map_id]
  exact sortStrings_nodup (List.nodup_dedup _)

/-! ## The bootstrap Logger (external collaborator, modelled from the spec) -/

/-- Modelled from the spec: the process-wide run logger
(`bootstrap.lib.logger.Logger`) is missing from src; the spec treats it as
"global process-wide logging/metric-recording ... external state with its own
lifecycle".  Its observable state is a dictionary from metric name to the
list of values logged so far under that name. -/
structure LoggerState where
  values : List (String × List ℚ)
deriving DecidableEq

/-- `Logger().values[k]`, defaulting to the empty history. -/
def loggerGet (st : LoggerState) (k : String) : List ℚ :=
  (dget? st.values k).getD []

/-- `Logger().log_value(k, v)`: append `v` to the history logged under `k`. -/
def logValueState (st : LoggerState) (k : String) (v : ℚ) : LoggerState :=
  ⟨dinsert st.values k (loggerGet st k ++ [v])⟩

/-! ## The event trace of one run of `main` -/

/-- Which of the two evaluator objects a call is made on. -/
inductive EvalKind where
  | relation
  | phrase
deriving DecidableEq

/-- One observable action of `main`, in program order: logger creation, a
file read, an ingestion or evaluation call on one of the two evaluators, a
logged message or metric value, a flush, or a file write (the last never
occurs; it is included so that its absence is expressible). -/
inductive Event (γ δ : Type) where
  | loggerInit (dir : String) (name : String)
  | logMsg (msg : String)
  | readFile (path : String)
  | addGroundTruth (ev : EvalKind) (imageId : String) (gt : γ)
  | addDetection (ev : EvalKind) (imageId : String) (det : δ)
  | evaluateCall (ev : EvalKind) (relationships : List (Int × String))
  | logValue (key : String) (value : ℚ)
  | flushLog
  | writeFile (path : String)
deriving DecidableEq

def Event.isAddGroundTruth {γ δ : Type} : Event γ δ → Bool
  | .addGroundTruth _ _ _ => true
  | _ => false

def Event.isAddDetection {γ δ : Type} : Event γ δ → Bool
  | .addDetection _ _ _ => true
  | _ => false

def Event.isEvaluateCall {γ δ : Type} : Event γ δ → Bool
  | .evaluateCall _ _ => true
  | _ => false

def Event.isEvaluateCallOf {γ δ : Type} (k : EvalKind) : Event γ δ → Bool
  | .evaluateCall e _ => decide (e = k)
  | _ => false

def Event.isWriteFile {γ δ : Type} : Event γ δ → Bool
  | .writeFile _ => true
  | _ => false

/-! ## External collaborators of `main` -/

/-- The collaborating modules the driver calls but does not define:
`oid_vrd_challenge_evaluation_utils.build_groundtruth_vrd_dictionary` /
`build_predictions_vrd_dictionary`, and the two evaluator objects from
`object_detection.utils.vrd_evaluation`.  An evaluator's `evaluate` is a
function of everything it has ingested (the groundtruth and detection
dictionaries in call order) and the `relationships` keyword argument; the
driver is verified for every such behavior. -/
structure VrdEvalFns (ρ γ δ : Type) where
  build_groundtruth_vrd_dictionary :
    List (Row ρ) → List (String × Int) → List (String × Int) → γ
  build_predictions_vrd_dictionary :
    List (Row ρ) → List (String × Int) → List (String × Int) → δ
  relationEvaluate :
    List (String × γ) → List (String × δ) → List (Int × String) →
      List (String × ℚ)
  phraseEvaluate :
    List (String × γ) → List (String × δ) → List (Int × String) →
      List (String × ℚ)

/-- The values `main` has computed when it finishes normally: the final
logger state, the composite score, and the two metric dictionaries returned
by the evaluators. -/
structure MainResult where
  logger : LoggerState
  score : ℚ
  relation_metrics : List (String × ℚ)
  phrase_metrics : List (String × ℚ)
deriving DecidableEq

/-- The six parsed command-line arguments (lines 150-177 of the driver). -/
structure Args where
  input_annotations_boxes : String
  input_annotations_labels : String
  input_predictions : String
  input_class_labelmap : String
  input_relationship_labelmap : String
  output_metrics : String
deriving DecidableEq

/-! ## The body of `main` (lines 83-145 of the driver) -/

/-- Lines 133-135: the composite score.  Each dictionary subscript raises
`KeyError` when the key is absent, so the result is partial. -/
def score? (relation_metrics phrase_metrics : List (String × ℚ)) : Option ℚ := do
  let a ← dget? relation_metrics "VRDMetric_Relationships_mAP@0.5IOU"
  let b ← dget? relation_metrics "VRDMetric_Relationships_Recall@50@0.5IOU"
  let c ← dget? phrase_metrics "VRDMetric_Phrases_mAP@0.5IOU"
  some (a * (0.4 : ℚ) + b * (0.2 : ℚ) + c * (0.4 : ℚ))

/-- The `(image_id, groundtruth_dictionary)` pairs of the groundtruth loop
(lines 101-104), in group order. -/
def gtPairsOf {ρ γ δ : Type} (fns : VrdEvalFns ρ γ δ)
    (classItems relItems : List (String × Int)) (rows : List (Row ρ)) :
    List (String × γ) :=
  (groupbyImageId rows).map (fun g =>
    (g.1, fns.build_groundtruth_vrd_dictionary g.2
      (_load_labelmap classItems) (_load_labelmap relItems)))

/-- The ingestion calls of the groundtruth loop (lines 106-109): for each
group, first the relation evaluator then the phrase evaluator receives the
same image id and the same dictionary. -/
def gtTraceOf {ρ γ δ : Type} (fns : VrdEvalFns ρ γ δ)
    (classItems relItems : List (String × Int)) (rows : List (Row ρ)) :
    List (Event γ δ) :=
  (gtPairsOf fns classItems relItems rows).flatMap (fun p =>
    [Event.addGroundTruth EvalKind.relation p.1 p.2,
     Event.addGroundTruth EvalKind.phrase p.1 p.2])

/-- The `(image_id, prediction_dictionary)` pairs of the prediction loop
(lines 112-115). -/
def detPairsOf {ρ γ δ : Type} (fns : VrdEvalFns ρ γ δ)
    (classItems relItems : List (String × Int)) (rows : List (Row ρ)) :
    List (String × δ) :=
  (groupbyImageId rows).map (fun g =>
    (g.1, fns.build_predictions_vrd_dictionary g.2
      (_load_labelmap classItems) (_load_labelmap relItems)))

/-- The ingestion calls of the prediction loop (lines 117-120). -/
def detTraceOf {ρ γ δ : Type} (fns : VrdEvalFns ρ γ δ)
    (classItems relItems : List (String × Int)) (rows : List (Row ρ)) :
    List (Event γ δ) :=
  (detPairsOf fns classItems relItems rows).flatMap (fun p =>
    [Event.addDetection EvalKind.relation p.1 p.2,
     Event.addDetection EvalKind.phrase p.1 p.2])

/-- The two `evaluate(relationships=...)` calls (lines 122-125) followed by
the two metric-logging loops (lines 127-131). -/
def evalHeadTrace {γ δ : Type} (sw : List (Int × String))
    (relation_metrics phrase_metrics : List (String × ℚ)) : List (Event γ δ) :=
  [Event.evaluateCall EvalKind.relation sw,
   Event.evaluateCall EvalKind.phrase sw]
  ++ relation_metrics.map (fun kv => Event.logValue ("eval_epoch." ++ kv.1) kv.2)
  ++ phrase_metrics.map (fun kv => Event.logValue ("eval_epoch." ++ kv.1) kv.2)

/-- The logger state after the two metric-logging loops. -/
def loggerAfterMetrics (st : LoggerState)
    (relation_metrics phrase_metrics : List (String × ℚ)) : LoggerState :=
  (relation_metrics ++ phrase_metrics).foldl
    (fun acc kv => logValueState acc ("eval_epoch." ++ kv.1) kv.2) st

/-- Lines 122-142: evaluate both protocols, log every metric, compute the
composite score, log it together with the epoch index, flush.  A missing
score key raises `KeyError`, aborting with the events so far. -/
def evalAndLog {ρ γ δ : Type} (fns : VrdEvalFns ρ γ δ)
    (g : List (String × γ)) (d : List (String × δ)) (sw : List (Int × String))
    (logger0 : LoggerState) : List (Event γ δ) × Except String MainResult :=
  match score? (fns.relationEvaluate g d sw) (fns.phraseEvaluate g d sw) with
  | none =>
    (evalHeadTrace sw (fns.relationEvaluate g d sw) (fns.phraseEvaluate g d sw),
     Except.error "KeyError")
  | some s =>
    let logger1 := loggerAfterMetrics logger0
      (fns.relationEvaluate g d sw) (fns.phraseEvaluate g d sw)
    let logger2 := logValueState logger1 "eval_epoch.score" s
    let epoch_id : ℚ := (((loggerGet logger2 "eval_epoch.score").length - 1 : ℕ) : ℚ)
    let logger3 := logValueState logger2 "eval_epoch.epoch" epoch_id
    (evalHeadTrace sw (fns.relationEvaluate g d sw) (fns.phraseEvaluate g d sw)
      ++ [Event.logValue "eval_epoch.score" s,
          Event.logValue "eval_epoch.epoch" epoch_id,
          Event.flushLog,
          Event.logMsg "End evaluation"],
     Except.ok ⟨logger3, s,
       fns.relationEvaluate g d sw, fns.phraseEvaluate g d sw⟩)

/-- Lines 101-145: everything after the four initial file reads.  The
predictions file is read only after all groundtruth has been ingested
(line 111), so its read result and path arrive as arguments. -/
def mainBody {ρ γ δ : Type} (fns : VrdEvalFns ρ γ δ)
    (all_annotations : List (Row ρ)) (classItems relItems : List (String × Int))
    (predResult : Except String (List (Row ρ))) (predPath : String)
    (logger0 : LoggerState) : List (Event γ δ) × Except String MainResult :=
  match predResult with
  | Except.error e =>
    (gtTraceOf fns classItems relItems all_annotations
      ++ [Event.readFile predPath], Except.error e)
  | Except.ok all_predictions =>
    let body := evalAndLog fns
      (gtPairsOf fns classItems relItems all_annotations)
      (detPairsOf fns classItems relItems all_predictions)
      (_swap_labelmap_dict (_load_labelmap relItems)) logger0
    (gtTraceOf fns classItems relItems all_annotations
      ++ [Event.readFile predPath]
      ++ detTraceOf fns classItems relItems all_predictions
      ++ body.1, body.2)

/-- Lines 84-99 followed by the rest of `main`: logger creation from the
derived directory and run name, the two annotation reads, their
concatenation (`pd.concat` keeps box rows before label rows), and the two
labelmap reads.  `rc` is `pd.read_csv`, `rlm` the labelmap file parse; each
failure propagates as an uncaught exception. -/
def mainInner {ρ γ δ : Type} (fns : VrdEvalFns ρ γ δ)
    (rc : String → Except String (List (Row ρ)))
    (rlm : String → Except String (List (String × Int)))
    (boxesPath labelsPath predsPath classPath relPath : String)
    (dir_exp name : String) (logger0 : LoggerState) :
    List (Event γ δ) × Except String MainResult :=
  let t0 : List (Event γ δ) :=
    [Event.loggerInit dir_exp name, Event.logMsg "Begin evaluation",
     Event.readFile boxesPath]
  match rc boxesPath with
  | Except.error e => (t0, Except.error e)
  | Except.ok all_box_annotations =>
    let t1 := t0 ++ [Event.readFile labelsPath]
    match rc labelsPath with
    | Except.error e => (t1, Except.error e)
    | Except.ok all_label_annotations =>
      let t2 := t1 ++ [Event.readFile classPath]
      match rlm classPath with
      | Except.error e => (t2, Except.error e)
      | Except.ok classItems =>
        let t3 := t2 ++ [Event.readFile relPath]
        match rlm relPath with
        | Except.error e => (t3, Except.error e)
        | Except.ok relItems =>
          let body := mainBody fns
            (all_box_annotations ++ all_label_annotations)
            classItems relItems (rc predsPath) predsPath logger0
          (t3 ++ body.1, body.2)

namespace Driver

/-- `main(parsed_args)`: the whole driver body.  The output-metrics path is
consumed on lines 84-85 only, to derive the logger directory and run name;
everything else `mainInner` receives are the five input paths. -/
def main {ρ γ δ : Type} (fns : VrdEvalFns ρ γ δ)
    (rc : String → Except String (List (Row ρ)))
    (rlm : String → Except String (List (String × Int)))
    (args : Args) (logger0 : LoggerState) :
    List (Event γ δ) × Except String MainResult :=
  mainInner fns rc rlm
    args.input_annotations_boxes args.input_annotations_labels
    args.input_predictions args.input_class_labelmap
    args.input_relationship_labelmap
    (posixDirname args.output_metrics)
    (splitDotJsonHead (posixBasename args.output_metrics))
    logger0

end Driver

/-! ## Trace observations -/

/-- The ingestion sequence an evaluator receives: image id plus either the
groundtruth dictionary or the prediction dictionary, in call order. -/
def ingestedSeq {γ δ : Type} (k : EvalKind) (tr : List (Event γ δ)) :
    List (String × (γ ⊕ δ)) :=
  tr.filterMap (fun e =>
    match e with
    | .addGroundTruth e0 i g => if e0 = k then some (i, Sum.inl g) else none
    | .addDetection e0 i d => if e0 = k then some (i, Sum.inr d) else none
    | _ => none)

/-- The image ids of the groundtruth-ingestion calls made on evaluator `k`. -/
def gtImageIds {γ δ : Type} (k : EvalKind) (tr : List (Event γ δ)) :
    List String :=
  tr.filterMap (fun e =>
    match e with
    | .addGroundTruth e0 i _ => if e0 = k then some i else none
    | _ => none)

/-! ## Decomposition of a completed run -/

theorem main_trace_eq {ρ γ δ : Type} (fns : VrdEvalFns ρ γ δ)
    (rc : String → Except String (List (Row ρ)))
    (rlm : String → Except String (List (String × Int)))
    (args : Args) (L : LoggerState)
    (br lr pr : List (Row ρ)) (ci ri : List (String × Int))
    (hb : rc args.input_annotations_boxes = Except.ok br)
    (hl : rc args.input_annotations_labels = Except.ok lr)
    (hc : rlm args.input_class_labelmap = Except.ok ci)
    (hr : rlm args.input_relationship_labelmap = Except.ok ri)
    (hp : rc args.input_predictions = Except.ok pr) :
    Driver.main fns rc rlm args L =
      ([Event.loggerInit (posixDirname args.output_metrics)
          (splitDotJsonHead (posixBasename args.output_metrics)),
        Event.logMsg "Begin evaluation",
        Event.readFile args.input_annotations_boxes,
        Event.readFile args.input_annotations_labels,
        Event.readFile args.input_class_labelmap,
        Event.readFile args.input_relationship_labelmap]
       ++ gtTraceOf fns ci ri (br ++ lr)
       ++ [Event.readFile args.input_predictions]
       ++ detTraceOf fns ci ri pr
       ++ (evalAndLog fns (gtPairsOf fns ci ri (br ++ lr))
            (detPairsOf fns ci ri pr)
            (_swap_labelmap_dict (_load_labelmap ri)) L).1,
       (evalAndLog fns (gtPairsOf fns ci ri (br ++ lr))
          (detPairsOf fns ci ri pr)
          (_swap_labelmap_dict (_load_labelmap ri)) L).2) := by
  simp [Driver.main, mainInner, mainBody, hb, hl, hc, hr, hp]

theorem main_ok_inv {ρ γ δ : Type} {fns : VrdEvalFns ρ γ δ}
    {rc : String → Except String (List (Row ρ))}
    {rlm : String → Except String (List (String × Int))}
    {args : Args} {L : LoggerState} {res : MainResult}
    (h : (Driver.main fns rc rlm args L).2 = Except.ok res) :
    ∃ br lr pr ci ri,
      rc args.input_annotations_boxes = Except.ok br ∧
      rc args.input_annotations_labels = Except.ok lr ∧
      rlm args.input_class_labelmap = Except.ok ci ∧
      rlm args.input_relationship_labelmap = Except.ok ri ∧
      rc args.input_predictions = Except.ok pr ∧
      (evalAndLog fns (gtPairsOf fns ci ri (br ++ lr))
        (detPairsOf fns ci ri pr)
        (_swap_labelmap_dict (_load_labelmap ri)) L).2 = Except.ok res := by
  cases hb : rc args.input_annotations_boxes with
  | error e => simp [Driver.main, mainInner, hb] at h
  | ok br =>
  cases hl : rc args.input_annotations_labels with
  | error e => simp [Driver.main, mainInner, hb, hl] at h
  | ok lr =>
  cases hc : rlm args.input_class_labelmap with
  | error e => simp [Driver.main, mainInner, hb, hl, hc] at h
  | ok ci =>
  cases hr : rlm args.input_relationship_labelmap with
  | error e => simp [Driver.main, mainInner, hb, hl, hc, hr] at h
  | ok ri =>
  cases hp : rc args.input_predictions with
  | error e => simp [Driver.main, mainInner, mainBody, hb, hl, hc, hr, hp] at h
  | ok pr =>
    refine ⟨br, lr, pr, ci, ri, rfl, rfl, rfl, rfl, rfl, ?_⟩
    simpa [Driver.main, mainInner, mainBody, hb, hl, hc, hr, hp] using h

theorem score?_eq_some {rm pm : List (String × ℚ)} {s : ℚ}
    (h : score? rm pm = some s) :
    ∃ a b c, dget? rm "VRDMetric_Relationships_mAP@0.5IOU" = some a ∧
      dget? rm "VRDMetric_Relationships_Recall@50@0.5IOU" = some b ∧
      dget? pm "VRDMetric_Phrases_mAP@0.5IOU" = some c ∧
      s = a * (0.4 : ℚ) + b * (0.2 : ℚ) + c * (0.4 : ℚ) := by
  unfold score? at h
  cases ha : dget? rm "VRDMetric_Relationships_mAP@0.5IOU" with
  | none => rw [ha] at h; cases h
  | some a =>
  cases hb : dget? rm "VRDMetric_Relationships_Recall@50@0.5IOU" with
  | none => rw [ha, hb] at h; cases h
  | some b =>
  cases hc : dget? pm "VRDMetric_Phrases_mAP@0.5IOU" with
  | none => rw [ha, hb, hc] at h; cases h
  | some c =>
    rw [ha, hb, hc] at h
    exact ⟨a, b, c, rfl, rfl, rfl, by simpa using h.symm⟩

theorem evalAndLog_ok {ρ γ δ : Type} {fns : VrdEvalFns ρ γ δ}
    {g : List (String × γ)} {d : List (String × δ)}
    {sw : List (Int × String)} {L : LoggerState} {res : MainResult}
    (h : (evalAndLog fns g d sw L).2 = Except.ok res) :
    res.relation_metrics = fns.relationEvaluate g d sw ∧
    res.phrase_metrics = fns.phraseEvaluate g d sw ∧
    score? (fns.relationEvaluate g d sw) (fns.phraseEvaluate g d sw) =
      some res.score ∧
    Event.logValue "eval_epoch.score" res.score ∈ (evalAndLog fns g d sw L).1 := by
  unfold evalAndLog at h ⊢
  cases hs : score? (fns.relationEvaluate g d sw) (fns.phraseEvaluate g d sw) with
  | none => rw [hs] at h; simp at h
  | some s =>
    rw [hs] at h
    obtain ⟨rl, rs, rrm, rpm⟩ := res
    dsimp only at h ⊢
    simp only [Except.ok.injEq, MainResult.mk.injEq] at h
    obtain ⟨h1, h2, h3, h4⟩ := h
    subst h2 h3 h4
    refine ⟨rfl, rfl, rfl, ?_⟩
    simp

/-! ## Characterizing the events of each trace block -/

theorem mem_pairFlatMap {α β : Type} {l : List α} {f g : α → β} {e : β}
    (he : e ∈ l.flatMap (fun p => [f p, g p])) : ∃ p ∈ l, e = f p ∨ e = g p := by
  rw [List.mem_flatMap] at he
  obtain ⟨p, hp, hin⟩ := he
  refine ⟨p, hp, ?_⟩
  simp only [List.mem_cons, List.not_mem_nil, or_false] at hin
  exact hin

theorem mem_gtTraceOf {ρ γ δ : Type} {fns : VrdEvalFns ρ γ δ}
    {ci ri : List (String × Int)} {rows : List (Row ρ)} {e : Event γ δ}
    (he : e ∈ gtTraceOf fns ci ri rows) :
    ∃ p ∈ gtPairsOf fns ci ri rows,
      e = Event.addGroundTruth EvalKind.relation p.1 p.2 ∨
      e = Event.addGroundTruth EvalKind.phrase p.1 p.2 :=
  mem_pairFlatMap he

theorem mem_detTraceOf {ρ γ δ : Type} {fns : VrdEvalFns ρ γ δ}
    {ci ri : List (String × Int)} {rows : List (Row ρ)} {e : Event γ δ}
    (he : e ∈ detTraceOf fns ci ri rows) :
    ∃ p ∈ detPairsOf fns ci ri rows,
      e = Event.addDetection EvalKind.relation p.1 p.2 ∨
      e = Event.addDetection EvalKind.phrase p.1 p.2 :=
  mem_pairFlatMap he

theorem mem_evalHeadTrace {γ δ : Type} {sw : List (Int × String)}
    {rm pm : List (String × ℚ)} {e : Event γ δ}
    (he : e ∈ evalHeadTrace sw rm pm) :
    e = Event.evaluateCall EvalKind.relation sw ∨
    e = Event.evaluateCall EvalKind.phrase sw ∨
    ∃ k v, e = Event.logValue k v := by
  unfold evalHeadTrace at he
  simp only [List.cons_append, List.nil_append, List.mem_cons, List.mem_append,
    List.mem_map] at he
  rcases he with h | h | (⟨kv, _, h⟩ | ⟨kv, _, h⟩)
  · exact Or.inl h
  · exact Or.inr (Or.inl h)
  · exact Or.inr (Or.inr ⟨_, _, h.symm⟩)
  · exact Or.inr (Or.inr ⟨_, _, h.symm⟩)

theorem mem_evalAndLog_trace {ρ γ δ : Type} {fns : VrdEvalFns ρ γ δ}
    {g : List (String × γ)} {d : List (String × δ)}
    {sw : List (Int × String)} {L : LoggerState} {e : Event γ δ}
    (he : e ∈ (evalAndLog fns g d sw L).1) :
    e = Event.evaluateCall EvalKind.relation sw ∨
    e = Event.evaluateCall EvalKind.phrase sw ∨
    (∃ k v, e = Event.logValue k v) ∨
    e = Event.flushLog ∨
    e = Event.logMsg "End evaluation" := by
  unfold evalAndLog at he
  split at he
  · rcases mem_evalHeadTrace he with h | h | h
    · exact Or.inl h
    · exact Or.inr (Or.inl h)
    · exact Or.inr (Or.inr (Or.inl h))
  · simp only [List.mem_append, List.mem_cons, List.not_mem_nil, or_false] at he
    rcases he with he | he | he | he | he
    · rcases mem_evalHeadTrace he with h | h | h
      · exact Or.inl h
      · exact Or.inr (Or.inl h)
      · exact Or.inr (Or.inr (Or.inl h))
    · exact Or.inr (Or.inr (Or.inl ⟨_, _, he⟩))
    · exact Or.inr (Or.inr (Or.inl ⟨_, _, he⟩))
    · exact Or.inr (Or.inr (Or.inr (Or.inl he)))
    · exact Or.inr (Or.inr (Or.inr (Or.inr he)))

/-- The two `evaluate` calls are present in the post-ingestion trace in both
the normal and the `KeyError` outcome. -/
theorem evaluateCall_mem_evalAndLog {ρ γ δ : Type} (fns : VrdEvalFns ρ γ δ)
    (g : List (String × γ)) (d : List (String × δ))
    (sw : List (Int × String)) (L : LoggerState) (k : EvalKind) :
    Event.evaluateCall k sw ∈ (evalAndLog fns g d sw L).1 := by
  unfold evalAndLog
  split <;> cases k <;> simp [evalHeadTrace]

/-- Exactly one `evaluate()` call per evaluator in the post-ingestion trace. -/
theorem filter_evaluateCallOf_evalAndLog {ρ γ δ : Type} (fns : VrdEvalFns ρ γ δ)
    (g : List (String × γ)) (d : List (String × δ))
    (sw : List (Int × String)) (L : LoggerState) (k : EvalKind) :
    ((evalAndLog fns g d sw L).1.filter (Event.isEvaluateCallOf k)) =
      [Event.evaluateCall k sw] := by
  unfold evalAndLog
  split <;>
    cases k <;>
      simp [evalHeadTrace, List.filter_append, List.filter_map,
        Event.isEvaluateCallOf, Function.comp_def]

theorem ingestedSeq_gtFlat {γ δ : Type} (k : EvalKind) (l : List (String × γ)) :
    ingestedSeq k ((l.flatMap (fun p =>
      [Event.addGroundTruth EvalKind.relation p.1 p.2,
       Event.addGroundTruth EvalKind.phrase p.1 p.2]) : List (Event γ δ))) =
      l.map (fun p => (p.1, Sum.inl p.2)) := by
  cases k with
  | relation =>
    induction l with
    | nil => rfl
    | cons p t ih =>
      simp only [ingestedSeq, List.flatMap_cons, List.cons_append,
        List.nil_append, List.filterMap_cons] at ih ⊢
      simp [ih]
  | phrase =>
    induction l with
    | nil => rfl
    | cons p t ih =>
      simp only [ingestedSeq, List.flatMap_cons, List.cons_append,
        List.nil_append, List.filterMap_cons] at ih ⊢
      simp [ih]

theorem ingestedSeq_detFlat {γ δ : Type} (k : EvalKind) (l : List (String × δ)) :
    ingestedSeq k ((l.flatMap (fun p =>
      [Event.addDetection EvalKind.relation p.1 p.2,
       Event.addDetection EvalKind.phrase p.1 p.2]) : List (Event γ δ))) =
      l.map (fun p => (p.1, Sum.inr p.2)) := by
  cases k with
  | relation =>
    induction l with
    | nil => rfl
    | cons p t ih =>
      simp only [ingestedSeq, List.flatMap_cons, List.cons_append,
        List.nil_append, List.filterMap_cons] at ih ⊢
      simp [ih]
  | phrase =>
    induction l with
    | nil => rfl
    | cons p t ih =>
      simp only [ingestedSeq, List.flatMap_cons, List.cons_append,
        List.nil_append, List.filterMap_cons] at ih ⊢
      simp [ih]

theorem gtImageIds_gtFlat {γ δ : Type} (k : EvalKind) (l : List (String × γ)) :
    gtImageIds k ((l.flatMap (fun p =>
      [Event.addGroundTruth EvalKind.relation p.1 p.2,
       Event.addGroundTruth EvalKind.phrase p.1 p.2]) : List (Event γ δ))) =
      l.map Prod.fst := by
  cases k with
  | relation =>
    induction l with
    | nil => rfl
    | cons p t ih =>
      simp only [gtImageIds, List.flatMap_cons, List.cons_append,
        List.nil_append, List.filterMap_cons] at ih ⊢
      simp [ih]
  | phrase =>
    induction l with
    | nil => rfl
    | cons p t ih =>
      simp only [gtImageIds, List.flatMap_cons, List.cons_append,
        List.nil_append, List.filterMap_cons] at ih ⊢
      simp [ih]

theorem ingestedSeq_eq_nil {γ δ : Type} {k : EvalKind} {tr : List (Event γ δ)}
    (h : ∀ e ∈ tr, e.isAddGroundTruth = false ∧ e.isAddDetection = false) :
    ingestedSeq k tr = [] := by
  rw [ingestedSeq, List.filterMap_eq_nil_iff]
  intro e he
  rcases h e he with ⟨hg, hd⟩
  cases e <;>
    simp_all [Event.isAddGroundTruth, Event.isAddDetection]

theorem gtImageIds_eq_nil {γ δ : Type} {k : EvalKind} {tr : List (Event γ δ)}
    (h : ∀ e ∈ tr, e.isAddGroundTruth = false) :
    gtImageIds k tr = [] := by
  rw [gtImageIds, List.filterMap_eq_nil_iff]
  intro e he
  have hg := h e he
  cases e <;> simp_all [Event.isAddGroundTruth]

theorem evalAndLog_no_ingestion {ρ γ δ : Type} {fns : VrdEvalFns ρ γ δ}
    {g : List (String × γ)} {d : List (String × δ)}
    {sw : List (Int × String)} {L : LoggerState} :
    ∀ e ∈ (evalAndLog fns g d sw L).1,
      e.isAddGroundTruth = false ∧ e.isAddDetection = false ∧
      e.isWriteFile = false := by
  intro e he
  rcases mem_evalAndLog_trace he with h | h | ⟨k, v, h⟩ | h | h <;> subst h <;>
    exact ⟨rfl, rfl, rfl⟩

/-- Positions of `P`-events all precede positions of `Q`-events when the list
splits into a `Q`-free prefix and a `P`-free suffix. -/
theorem lt_of_append_get {α : Type} (P Q : α → Bool) (xs ys : List α)
    (hP : ∀ e ∈ ys, P e = false) (hQ : ∀ e ∈ xs, Q e = false) :
    ∀ i j (hi : i < (xs ++ ys).length) (hj : j < (xs ++ ys).length),
      P ((xs ++ ys).get ⟨i, hi⟩) = true →
      Q ((xs ++ ys).get ⟨j, hj⟩) = true → i < j := by
  intro i j hi hj hPi hQj
  rw [List.get_eq_getElem] at hPi hQj
  rcases Nat.lt_or_ge i xs.length with hix | hix
  · rcases Nat.lt_or_ge j xs.length with hjx | hjx
    · exfalso
      rw [List.getElem_append_left hjx] at hQj
      have := hQ _ (List.getElem_mem hjx)
      rw [this] at hQj
      cases hQj
    · exact Nat.lt_of_lt_of_le hix hjx
  · exfalso
    have hlen : i - xs.length < ys.length := by
      rw [List.length_append] at hi
      omega
    rw [List.getElem_append_right hix] at hPi
    have hmem : ys.get ⟨i - xs.length, hlen⟩ ∈ ys := List.get_mem ys _ hlen
    rw [List.get_eq_getElem] at hmem
    rw [hP _ hmem] at hPi
    cases hPi

theorem ingestedSeq_append {γ δ : Type} (k : EvalKind)
    (l1 l2 : List (Event γ δ)) :
    ingestedSeq k (l1 ++ l2) = ingestedSeq k l1 ++ ingestedSeq k l2 :=
  List.filterMap_append l1 l2 _

theorem gtImageIds_append {γ δ : Type} (k : EvalKind)
    (l1 l2 : List (Event γ δ)) :
    gtImageIds k (l1 ++ l2) = gtImageIds k l1 ++ gtImageIds k l2 :=
  List.filterMap_append l1 l2 _

theorem ingestedSeq_gtTraceOf {ρ γ δ : Type} (fns : VrdEvalFns ρ γ δ)
    (ci ri : List (String × Int)) (rows : List (Row ρ)) (k : EvalKind) :
    ingestedSeq k (gtTraceOf fns ci ri rows) =
      (gtPairsOf fns ci ri rows).map (fun p => (p.1, Sum.inl p.2)) :=
  ingestedSeq_gtFlat k _

theorem ingestedSeq_detTraceOf {ρ γ δ : Type} (fns : VrdEvalFns ρ γ δ)
    (ci ri : List (String × Int)) (rows : List (Row ρ)) (k : EvalKind) :
    ingestedSeq k (detTraceOf fns ci ri rows) =
      (detPairsOf fns ci ri rows).map (fun p => (p.1, Sum.inr p.2)) :=
  ingestedSeq_detFlat k _

theorem gtImageIds_gtTraceOf {ρ γ δ : Type} (fns : VrdEvalFns ρ γ δ)
    (ci ri : List (String × Int)) (rows : List (Row ρ)) (k : EvalKind) :
    gtImageIds k (gtTraceOf fns ci ri rows) =
      (gtPairsOf fns ci ri rows).map Prod.fst :=
  gtImageIds_gtFlat k _

theorem gtImageIds_detTraceOf {ρ γ δ : Type} (fns : VrdEvalFns ρ γ δ)
    (ci ri : List (String × Int)) (rows : List (Row ρ)) (k : EvalKind) :
    gtImageIds k (detTraceOf fns ci ri rows) = [] := by
  apply gtImageIds_eq_nil
  intro e he
  rcases mem_detTraceOf he with ⟨p, _, h | h⟩ <;> subst h <;> rfl

theorem detTraceOf_no_gt_no_eval {ρ γ δ : Type} {fns : VrdEvalFns ρ γ δ}
    {ci ri : List (String × Int)} {rows : List (Row ρ)} :
    ∀ e ∈ detTraceOf fns ci ri rows,
      e.isAddGroundTruth = false ∧ e.isEvaluateCall = false ∧
      (∀ k, Event.isEvaluateCallOf k e = false) ∧ e.isWriteFile = false := by
  intro e he
  rcases mem_detTraceOf he with ⟨p, _, h | h⟩ <;> subst h <;>
    exact ⟨rfl, rfl, fun k => rfl, rfl⟩

theorem gtTraceOf_no_det_no_eval {ρ γ δ : Type} {fns : VrdEvalFns ρ γ δ}
    {ci ri : List (String × Int)} {rows : List (Row ρ)} :
    ∀ e ∈ gtTraceOf fns ci ri rows,
      e.isAddDetection = false ∧ e.isEvaluateCall = false ∧
      (∀ k, Event.isEvaluateCallOf k e = false) ∧ e.isWriteFile = false := by
  intro e he
  rcases mem_gtTraceOf he with ⟨p, _, h | h⟩ <;> subst h <;>
    exact ⟨rfl, rfl, fun k => rfl, rfl⟩

theorem filter_evalOf_gtTraceOf {ρ γ δ : Type} (fns : VrdEvalFns ρ γ δ)
    (ci ri : List (String × Int)) (rows : List (Row ρ)) (k : EvalKind) :
    (gtTraceOf fns ci ri rows).filter (Event.isEvaluateCallOf k) = [] :=
  List.filter_eq_nil_iff.mpr (fun e he => by
    simp [(gtTraceOf_no_det_no_eval e he).2.2.1 k])

theorem filter_evalOf_detTraceOf {ρ γ δ : Type} (fns : VrdEvalFns ρ γ δ)
    (ci ri : List (String × Int)) (rows : List (Row ρ)) (k : EvalKind) :
    (detTraceOf fns ci ri rows).filter (Event.isEvaluateCallOf k) = [] :=
  List.filter_eq_nil_iff.mpr (fun e he => by
    simp [(detTraceOf_no_gt_no_eval e he).2.2.1 k])

theorem dget?_eq_some_of_mem_nodup {α β : Type} [DecidableEq α]
    {d : List (α × β)} (hnd : (d.map Prod.fst).Nodup) {k : α} {v : β}
    (hm : (k, v) ∈ d) : dget? d k = some v := by
  induction d with
  | nil => cases hm
  | cons p t ih =>
    have hcomp : (∀ x : β, (p.1, x) ∉ t) ∧ (t.map Prod.fst).Nodup := by
      simpa [List.nodup_cons] using hnd
    rcases List.mem_cons.mp hm with h | h
    · subst h
      simp [dget?, List.find?_cons]
    · have hpk : ¬p.1 = k := by
        intro he
        exact hcomp.1 v (by rwa [he])
      have := ih hcomp.2 h
      simpa [dget?, List.find?_cons, hpk] using this

theorem gtPairsOf_keys {ρ γ δ : Type} (fns : VrdEvalFns ρ γ δ)
    (ci ri : List (String × Int)) (rows : List (Row ρ)) :
    (gtPairsOf fns ci ri rows).map Prod.fst =
      (groupbyImageId rows).map Prod.fst := by
  simp [gtPairsOf, List.map_map, Function.comp_def]

/-- The flat metric mapping produced by a completed run: the union of the
relation evaluator's metrics and the phrase evaluator's metrics, plus the
derived composite score. -/
def producedMetrics (res : MainResult) : List (String × ℚ) :=
  res.relation_metrics ++ res.phrase_metrics ++ [("score", res.score)]

/-! ## The command-line surface (lines 148-178 of the driver) -/

/-- The argparse flag declarations in source order: flag name and its
`required` setting.  All six are declared with `required=True` and no other
flags exist. -/
def cliFlags : List (String × Bool) :=
  [("--input_annotations_boxes", true),
   ("--input_annotations_labels", true),
   ("--input_predictions", true),
   ("--input_class_labelmap", true),
   ("--input_relationship_labelmap", true),
   ("--output_metrics", true)]

/-- Modelled from the spec: the argparse parsing step is library code
outside the driver source; per the spec all six flags are required with no
optional flags, so parsing succeeds exactly when every flag is supplied,
producing the `Args` record consumed by `main`. -/
def parseArgs (provided : List (String × String)) : Option Args :=
  match dget? provided "--input_annotations_boxes",
      dget? provided "--input_annotations_labels",
      dget? provided "--input_predictions",
      dget? provided "--input_class_labelmap",
      dget? provided "--input_relationship_labelmap",
      dget? provided "--output_metrics" with
  | some b, some l, some p, some c, some r, some o => some ⟨b, l, p, c, r, o⟩
  | _, _, _, _, _, _ => none

/-- Modelled from the spec: the process exit status of the script.  argparse
exits with status 2 when a required flag is missing; an uncaught exception
(file not found, CSV or labelmap parse failure, missing metric key) exits
with status 1; a completed run exits 0. -/
def runScript {ρ γ δ : Type} (fns : VrdEvalFns ρ γ δ)
    (rc : String → Except String (List (Row ρ)))
    (rlm : String → Except String (List (String × Int)))
    (provided : List (String × String)) (L : LoggerState) : Nat :=
  match parseArgs provided with
  | none => 2
  | some args =>
    match (Driver.main fns rc rlm args L).2 with
    | Except.error _ => 1
    | Except.ok _ => 0

/-! ## Claims -/

/-- Claim C9: on every dictionary with pairwise distinct values (and, being
a dictionary, distinct keys) `_swap_labelmap_dict` is an involution; on the
concrete dictionary `{"a": 1, "b": 1}` with a duplicate value the swap keeps
only the later-enumerated key `"b"`, so the round trip collapses to
`{"b": 1}` and loses the key `"a"`. -/
theorem claim_C9_swap_labelmap_involution :
    (∀ (d : List (String × Int)), (d.map Prod.fst).Nodup →
      (d.map Prod.snd).Nodup →
      _swap_labelmap_dict (_swap_labelmap_dict d) = d) ∧
    _swap_labelmap_dict [("a", (1 : Int)), ("b", 1)] = [(1, "b")] ∧
    _swap_labelmap_dict (_swap_labelmap_dict [("a", (1 : Int)), ("b", 1)]) =
      [("b", 1)] ∧
    _swap_labelmap_dict (_swap_labelmap_dict [("a", (1 : Int)), ("b", 1)]) ≠
      [("a", (1 : Int)), ("b", 1)] := by
  refine ⟨?_, rfl, rfl, by decide⟩
  intro d hk hv
  rw [_swap_labelmap_dict_eq_map_swap d hv,
    _swap_labelmap_dict_eq_map_swap (d.map Prod.swap)
      (by simpa [List.map_map, Function.comp_def] using hk)]
  simp [List.map_map, Function.comp_def, Prod.swap_swap]

/-- Claim C9 witness: the involution applied to the concrete injective
dictionary `{"x": 5, "y": 7}`. -/
theorem claim_C9_swap_labelmap_involution_witness :
    _swap_labelmap_dict (_swap_labelmap_dict [("x", (5 : Int)), ("y", 7)]) =
      [("x", (5 : Int)), ("y", 7)] :=
  claim_C9_swap_labelmap_involution.1 [("x", (5 : Int)), ("y", 7)]
    (by decide) (by decide)

/-- Claim C1: in every completed run of `main`, the value logged as
`eval_epoch.score` is exactly `0.4 * relation_mAP + 0.2 * relation_Recall@50
+ 0.4 * phrase_mAP`, where the three operands are the values the evaluators
returned under the corresponding metric keys; the weights are literal
constants, independent of every argument, input file and evaluator
behavior over which the statement quantifies. -/
theorem claim_C1_composite_score {ρ γ δ : Type} (fns : VrdEvalFns ρ γ δ)
    (rc : String → Except String (List (Row ρ)))
    (rlm : String → Except String (List (String × Int)))
    (args : Args) (L : LoggerState) (res : MainResult)
    (h : (Driver.main fns rc rlm args L).2 = Except.ok res) :
    Event.logValue "eval_epoch.score" res.score ∈
      (Driver.main fns rc rlm args L).1 ∧
    ∃ a b c,
      dget? res.relation_metrics "VRDMetric_Relationships_mAP@0.5IOU" = some a ∧
      dget? res.relation_metrics "VRDMetric_Relationships_Recall@50@0.5IOU" =
        some b ∧
      dget? res.phrase_metrics "VRDMetric_Phrases_mAP@0.5IOU" = some c ∧
      res.score = a * (0.4 : ℚ) + b * (0.2 : ℚ) + c * (0.4 : ℚ) := by
  obtain ⟨br, lr, pr, ci, ri, hb, hl, hc, hr, hp, hok⟩ := main_ok_inv h
  obtain ⟨hrm, hpm, hscore, hmem⟩ := evalAndLog_ok hok
  constructor
  · rw [main_trace_eq fns rc rlm args L br lr pr ci ri hb hl hc hr hp]
    simp only [List.mem_append]
    exact Or.inr hmem
  · obtain ⟨a, b, c, ha, hb2, hc2, hs⟩ := score?_eq_some hscore
    exact ⟨a, b, c, by rw [hrm]; exact ha, by rw [hrm]; exact hb2,
      by rw [hpm]; exact hc2, hs⟩

/-- Claim C3: every completed run's metric mapping (the union of the two
evaluators' results plus the derived composite) contains the three named
metric keys and the composite key `score`, each with a rational value. -/
theorem claim_C3_metric_keys {ρ γ δ : Type} (fns : VrdEvalFns ρ γ δ)
    (rc : String → Except String (List (Row ρ)))
    (rlm : String → Except String (List (String × Int)))
    (args : Args) (L : LoggerState) (res : MainResult)
    (h : (Driver.main fns rc rlm args L).2 = Except.ok res) :
    (∃ v, ("VRDMetric_Relationships_mAP@0.5IOU", v) ∈ producedMetrics res) ∧
    (∃ v, ("VRDMetric_Relationships_Recall@50@0.5IOU", v) ∈
      producedMetrics res) ∧
    (∃ v, ("VRDMetric_Phrases_mAP@0.5IOU", v) ∈ producedMetrics res) ∧
    ("score", res.score) ∈ producedMetrics res := by
  obtain ⟨br, lr, pr, ci, ri, hb, hl, hc, hr, hp, hok⟩ := main_ok_inv h
  obtain ⟨hrm, hpm, hscore, _⟩ := evalAndLog_ok hok
  obtain ⟨a, b, c, ha, hb2, hc2, _⟩ := score?_eq_some hscore
  have hma : ("VRDMetric_Relationships_mAP@0.5IOU", a) ∈ res.relation_metrics := by
    rw [hrm]; exact mem_of_dget?_eq_some ha
  have hmb : ("VRDMetric_Relationships_Recall@50@0.5IOU", b) ∈
      res.relation_metrics := by
    rw [hrm]; exact mem_of_dget?_eq_some hb2
  have hmc : ("VRDMetric_Phrases_mAP@0.5IOU", c) ∈ res.phrase_metrics := by
    rw [hpm]; exact mem_of_dget?_eq_some hc2
  refine ⟨⟨a, ?_⟩, ⟨b, ?_⟩, ⟨c, ?_⟩, ?_⟩ <;>
    simp [producedMetrics, hma, hmb, hmc]

theorem ingestedSeq_evalAndLog {ρ γ δ : Type} (fns : VrdEvalFns ρ γ δ)
    (g : List (String × γ)) (d : List (String × δ))
    (sw : List (Int × String)) (L : LoggerState) (k : EvalKind) :
    ingestedSeq k (evalAndLog fns g d sw L).1 = [] :=
  ingestedSeq_eq_nil (fun e he =>
    ⟨(evalAndLog_no_ingestion e he).1, (evalAndLog_no_ingestion e he).2.1⟩)

theorem gtImageIds_evalAndLog {ρ γ δ : Type} (fns : VrdEvalFns ρ γ δ)
    (g : List (String × γ)) (d : List (String × δ))
    (sw : List (Int × String)) (L : LoggerState) (k : EvalKind) :
    gtImageIds k (evalAndLog fns g d sw L).1 = [] :=
  gtImageIds_eq_nil (fun e he => (evalAndLog_no_ingestion e he).1)

/-- Claim C2: under successfully read inputs, in the trace of `main` every
groundtruth-ingestion call precedes every detection-ingestion call, every
detection-ingestion call precedes every `evaluate()` call, and each of the
two evaluators receives exactly one `evaluate()` call. -/
theorem claim_C2_call_order {ρ γ δ : Type} (fns : VrdEvalFns ρ γ δ)
    (rc : String → Except String (List (Row ρ)))
    (rlm : String → Except String (List (String × Int)))
    (args : Args) (L : LoggerState)
    (br lr pr : List (Row ρ)) (ci ri : List (String × Int))
    (hb : rc args.input_annotations_boxes = Except.ok br)
    (hl : rc args.input_annotations_labels = Except.ok lr)
    (hc : rlm args.input_class_labelmap = Except.ok ci)
    (hr : rlm args.input_relationship_labelmap = Except.ok ri)
    (hp : rc args.input_predictions = Except.ok pr) :
    (∀ i j (hi : i < (Driver.main fns rc rlm args L).1.length)
        (hj : j < (Driver.main fns rc rlm args L).1.length),
      Event.isAddGroundTruth ((Driver.main fns rc rlm args L).1.get ⟨i, hi⟩) =
        true →
      Event.isAddDetection ((Driver.main fns rc rlm args L).1.get ⟨j, hj⟩) =
        true → i < j) ∧
    (∀ i j (hi : i < (Driver.main fns rc rlm args L).1.length)
        (hj : j < (Driver.main fns rc rlm args L).1.length),
      Event.isAddDetection ((Driver.main fns rc rlm args L).1.get ⟨i, hi⟩) =
        true →
      Event.isEvaluateCall ((Driver.main fns rc rlm args L).1.get ⟨j, hj⟩) =
        true → i < j) ∧
    ((Driver.main fns rc rlm args L).1.filter
      (Event.isEvaluateCallOf EvalKind.relation)).length = 1 ∧
    ((Driver.main fns rc rlm args L).1.filter
      (Event.isEvaluateCallOf EvalKind.phrase)).length = 1 := by
  have htr := main_trace_eq fns rc rlm args L br lr pr ci ri hb hl hc hr hp
  refine ⟨?_, ?_, ?_, ?_⟩
  · have hsplit : (Driver.main fns rc rlm args L).1 =
        ([Event.loggerInit (posixDirname args.output_metrics)
            (splitDotJsonHead (posixBasename args.output_metrics)),
          Event.logMsg "Begin evaluation",
          Event.readFile args.input_annotations_boxes,
          Event.readFile args.input_annotations_labels,
          Event.readFile args.input_class_labelmap,
          Event.readFile args.input_relationship_labelmap]
         ++ gtTraceOf fns ci ri (br ++ lr)) ++
        (Event.readFile args.input_predictions ::
          (detTraceOf fns ci ri pr ++
            (evalAndLog fns (gtPairsOf fns ci ri (br ++ lr))
              (detPairsOf fns ci ri pr)
              (_swap_labelmap_dict (_load_labelmap ri)) L).1)) := by
      rw [htr]; simp
    rw [hsplit]
    refine lt_of_append_get _ _ _ _ ?_ ?_
    · intro e he
      rcases List.mem_cons.mp he with h | h
      · subst h; rfl
      · rcases List.mem_append.mp h with h2 | h2
        · exact (detTraceOf_no_gt_no_eval e h2).1
        · exact (evalAndLog_no_ingestion e h2).1
    · intro e he
      rcases List.mem_append.mp he with h | h
      · simp only [List.mem_cons, List.not_mem_nil, or_false] at h
        rcases h with h | h | h | h | h | h <;> subst h <;> rfl
      · exact (gtTraceOf_no_det_no_eval e h).1
  · have hsplit : (Driver.main fns rc rlm args L).1 =
        ([Event.loggerInit (posixDirname args.output_metrics)
            (splitDotJsonHead (posixBasename args.output_metrics)),
          Event.logMsg "Begin evaluation",
          Event.readFile args.input_annotations_boxes,
          Event.readFile args.input_annotations_labels,
          Event.readFile args.input_class_labelmap,
          Event.readFile args.input_relationship_labelmap]
         ++ gtTraceOf fns ci ri (br ++ lr)
         ++ (Event.readFile args.input_predictions ::
              detTraceOf fns ci ri pr)) ++
        (evalAndLog fns (gtPairsOf fns ci ri (br ++ lr))
          (detPairsOf fns ci ri pr)
          (_swap_labelmap_dict (_load_labelmap ri)) L).1 := by
      rw [htr]; simp
    rw [hsplit]
    refine lt_of_append_get _ _ _ _ ?_ ?_
    · intro e he
      exact (evalAndLog_no_ingestion e he).2.1
    · intro e he
      rcases List.mem_append.mp he with h | h
      · rcases List.mem_append.mp h with h2 | h2
        · simp only [List.mem_cons, List.not_mem_nil, or_false] at h2
          rcases h2 with h3 | h3 | h3 | h3 | h3 | h3 <;> subst h3 <;> rfl
        · exact (gtTraceOf_no_det_no_eval e h2).2.1
      · rcases List.mem_cons.mp h with h2 | h2
        · subst h2; rfl
        · exact (detTraceOf_no_gt_no_eval e h2).2.1
  · rw [htr]
    simp [List.filter_append, filter_evalOf_gtTraceOf, filter_evalOf_detTraceOf,
      filter_evaluateCallOf_evalAndLog, Event.isEvaluateCallOf]
  · rw [htr]
    simp [List.filter_append, filter_evalOf_gtTraceOf, filter_evalOf_detTraceOf,
      filter_evaluateCallOf_evalAndLog, Event.isEvaluateCallOf]

/-- Claim C4: under successfully read inputs, the relation evaluator and the
phrase evaluator receive the identical ingestion sequence — the same image
ids paired with the very same groundtruth and prediction dictionaries, in
the same order: first every group of the concatenated annotations, then
every group of the predictions. -/
theorem claim_C4_identical_ingestion {ρ γ δ : Type} (fns : VrdEvalFns ρ γ δ)
    (rc : String → Except String (List (Row ρ)))
    (rlm : String → Except String (List (String × Int)))
    (args : Args) (L : LoggerState)
    (br lr pr : List (Row ρ)) (ci ri : List (String × Int))
    (hb : rc args.input_annotations_boxes = Except.ok br)
    (hl : rc args.input_annotations_labels = Except.ok lr)
    (hc : rlm args.input_class_labelmap = Except.ok ci)
    (hr : rlm args.input_relationship_labelmap = Except.ok ri)
    (hp : rc args.input_predictions = Except.ok pr) :
    ingestedSeq EvalKind.relation (Driver.main fns rc rlm args L).1 =
      ingestedSeq EvalKind.phrase (Driver.main fns rc rlm args L).1 ∧
    ingestedSeq EvalKind.relation (Driver.main fns rc rlm args L).1 =
      (gtPairsOf fns ci ri (br ++ lr)).map (fun p => (p.1, Sum.inl p.2)) ++
      (detPairsOf fns ci ri pr).map (fun p => (p.1, Sum.inr p.2)) := by
  have htr := main_trace_eq fns rc rlm args L br lr pr ci ri hb hl hc hr hp
  have hcompute : ∀ k, ingestedSeq k (Driver.main fns rc rlm args L).1 =
      (gtPairsOf fns ci ri (br ++ lr)).map (fun p => (p.1, Sum.inl p.2)) ++
      (detPairsOf fns ci ri pr).map (fun p => (p.1, Sum.inr p.2)) := by
    intro k
    rw [htr]
    simp only [ingestedSeq_append, ingestedSeq_gtTraceOf, ingestedSeq_detTraceOf,
      ingestedSeq_evalAndLog]
    simp [ingestedSeq]
  exact ⟨(hcompute EvalKind.relation).trans (hcompute EvalKind.phrase).symm,
    hcompute EvalKind.relation⟩

/-- Claim C7: under successfully read inputs, the groundtruth-ingestion
calls made on each evaluator carry pairwise distinct image ids — they are
exactly the keys of the `groupby` partition of the concatenated annotation
rows — so no image id is ever ingested twice and the evaluators'
duplicate-image error branch is unreachable from this driver. -/
theorem claim_C7_unique_groundtruth_images {ρ γ δ : Type}
    (fns : VrdEvalFns ρ γ δ)
    (rc : String → Except String (List (Row ρ)))
    (rlm : String → Except String (List (String × Int)))
    (args : Args) (L : LoggerState)
    (br lr pr : List (Row ρ)) (ci ri : List (String × Int))
    (hb : rc args.input_annotations_boxes = Except.ok br)
    (hl : rc args.input_annotations_labels = Except.ok lr)
    (hc : rlm args.input_class_labelmap = Except.ok ci)
    (hr : rlm args.input_relationship_labelmap = Except.ok ri)
    (hp : rc args.input_predictions = Except.ok pr) :
    (gtImageIds EvalKind.relation (Driver.main fns rc rlm args L).1).Nodup ∧
    (gtImageIds EvalKind.phrase (Driver.main fns rc rlm args L).1).Nodup ∧
    gtImageIds EvalKind.relation (Driver.main fns rc rlm args L).1 =
      (groupbyImageId (br ++ lr)).map Prod.fst := by
  have htr := main_trace_eq fns rc rlm args L br lr pr ci ri hb hl hc hr hp
  have hids : ∀ k, gtImageIds k (Driver.main fns rc rlm args L).1 =
      (groupbyImageId (br ++ lr)).map Prod.fst := by
    intro k
    rw [htr]
    simp only [gtImageIds_append, gtImageIds_gtTraceOf, gtImageIds_detTraceOf,
      gtImageIds_evalAndLog]
    simp [gtImageIds, gtPairsOf_keys]
  refine ⟨?_, ?_, hids EvalKind.relation⟩
  · rw [hids EvalKind.relation]; exact groupbyImageId_keys_nodup _
  · rw [hids EvalKind.phrase]; exact groupbyImageId_keys_nodup _

/-- Claim C6: `_load_labelmap` stores one entry per item, keyed by the item
name with the item id as value; and both `evaluate()` calls receive, as
their `relationships` argument, the id-to-name inverse of the relationship
label map as produced by `_swap_labelmap_dict`. -/
theorem claim_C6_labelmaps {ρ γ δ : Type} (fns : VrdEvalFns ρ γ δ)
    (rc : String → Except String (List (Row ρ)))
    (rlm : String → Except String (List (String × Int)))
    (args : Args) (L : LoggerState)
    (br lr pr : List (Row ρ)) (ci ri : List (String × Int))
    (hb : rc args.input_annotations_boxes = Except.ok br)
    (hl : rc args.input_annotations_labels = Except.ok lr)
    (hc : rlm args.input_class_labelmap = Except.ok ci)
    (hr : rlm args.input_relationship_labelmap = Except.ok ri)
    (hp : rc args.input_predictions = Except.ok pr) :
    (∀ items : List (String × Int), (items.map Prod.fst).Nodup →
      _load_labelmap items = items ∧
      ∀ it ∈ items, dget? (_load_labelmap items) it.1 = some it.2) ∧
    Event.evaluateCall EvalKind.relation
        (_swap_labelmap_dict (_load_labelmap ri)) ∈
      (Driver.main fns rc rlm args L).1 ∧
    Event.evaluateCall EvalKind.phrase
        (_swap_labelmap_dict (_load_labelmap ri)) ∈
      (Driver.main fns rc rlm args L).1 := by
  have htr := main_trace_eq fns rc rlm args L br lr pr ci ri hb hl hc hr hp
  refine ⟨?_, ?_, ?_⟩
  · intro items hnd
    refine ⟨_load_labelmap_of_nodup items hnd, ?_⟩
    intro it hit
    rw [_load_labelmap_of_nodup items hnd]
    exact dget?_eq_some_of_mem_nodup hnd (by simpa using hit)
  · rw [htr]
    simp only [List.mem_append]
    exact Or.inr (evaluateCall_mem_evalAndLog fns _ _ _ L EvalKind.relation)
  · rw [htr]
    simp only [List.mem_append]
    exact Or.inr (evaluateCall_mem_evalAndLog fns _ _ _ L EvalKind.phrase)

theorem evalAndLog_logger_irrelevant {ρ γ δ : Type} (fns : VrdEvalFns ρ γ δ)
    (g : List (String × γ)) (d : List (String × δ))
    (sw : List (Int × String)) (L1 L2 : LoggerState) :
    Except.map (fun res => (producedMetrics res, res.score))
      (evalAndLog fns g d sw L1).2 =
    Except.map (fun res => (producedMetrics res, res.score))
      (evalAndLog fns g d sw L2).2 := by
  unfold evalAndLog
  cases hs : score? (fns.relationEvaluate g d sw) (fns.phraseEvaluate g d sw) <;>
    simp [producedMetrics, Except.map]

/-- Claim C5: `main` is a pure function of its inputs — on identical input
data the metric mapping and the composite score are identical, regardless
even of the pre-existing state of the persistent logger (which the composite
and the metrics never depend on). -/
theorem claim_C5_determinism {ρ γ δ : Type} (fns : VrdEvalFns ρ γ δ)
    (rc : String → Except String (List (Row ρ)))
    (rlm : String → Except String (List (String × Int)))
    (args : Args) (L1 L2 : LoggerState) :
    Except.map (fun res => (producedMetrics res, res.score))
      (Driver.main fns rc rlm args L1).2 =
    Except.map (fun res => (producedMetrics res, res.score))
      (Driver.main fns rc rlm args L2).2 := by
  cases hb : rc args.input_annotations_boxes with
  | error e => simp [Driver.main, mainInner, hb]
  | ok br =>
  cases hl : rc args.input_annotations_labels with
  | error e => simp [Driver.main, mainInner, hb, hl]
  | ok lr =>
  cases hc : rlm args.input_class_labelmap with
  | error e => simp [Driver.main, mainInner, hb, hl, hc]
  | ok ci =>
  cases hr : rlm args.input_relationship_labelmap with
  | error e => simp [Driver.main, mainInner, hb, hl, hc, hr]
  | ok ri =>
  cases hp : rc args.input_predictions with
  | error e => simp [Driver.main, mainInner, mainBody, hb, hl, hc, hr, hp]
  | ok pr =>
    simp only [Driver.main, mainInner, mainBody, hb, hl, hc, hr, hp]
    exact evalAndLog_logger_irrelevant fns _ _ _ L1 L2

theorem mainBody_no_write {ρ γ δ : Type} {fns : VrdEvalFns ρ γ δ}
    {ann : List (Row ρ)} {ci ri : List (String × Int)}
    {predRes : Except String (List (Row ρ))} {predPath : String}
    {L : LoggerState} :
    ∀ e ∈ (mainBody fns ann ci ri predRes predPath L).1,
      e.isWriteFile = false := by
  intro e he
  unfold mainBody at he
  split at he
  · rcases List.mem_append.mp he with h | h
    · exact (gtTraceOf_no_det_no_eval e h).2.2.2
    · simp only [List.mem_cons, List.not_mem_nil, or_false] at h
      subst h; rfl
  · dsimp only at he
    rcases List.mem_append.mp he with h | h
    · rcases List.mem_append.mp h with h2 | h2
      · rcases List.mem_append.mp h2 with h3 | h3
        · exact (gtTraceOf_no_det_no_eval e h3).2.2.2
        · simp only [List.mem_cons, List.not_mem_nil, or_false] at h3
          subst h3; rfl
      · exact (detTraceOf_no_gt_no_eval e h2).2.2.2
    · exact (evalAndLog_no_ingestion e h).2.2

theorem mainInner_no_write {ρ γ δ : Type} {fns : VrdEvalFns ρ γ δ}
    {rc : String → Except String (List (Row ρ))}
    {rlm : String → Except String (List (String × Int))}
    {b l p c r d n : String} {L : LoggerState} :
    ∀ e ∈ (mainInner fns rc rlm b l p c r d n L).1, e.isWriteFile = false := by
  intro e he
  unfold mainInner at he
  split at he
  · simp only [List.mem_cons, List.not_mem_nil, or_false] at he
    rcases he with h | h | h <;> subst h <;> rfl
  · split at he
    · simp only [List.cons_append, List.nil_append, List.mem_cons,
        List.not_mem_nil, or_false] at he
      rcases he with h | h | h | h <;> subst h <;> rfl
    · split at he
      · simp only [List.cons_append, List.nil_append, List.mem_cons,
          List.not_mem_nil, or_false] at he
        rcases he with h | h | h | h | h <;> subst h <;> rfl
      · split at he
        · simp only [List.cons_append, List.nil_append, List.mem_cons,
            List.not_mem_nil, or_false] at he
          rcases he with h | h | h | h | h | h <;> subst h <;> rfl
        · dsimp only at he
          rcases List.mem_append.mp he with h | h
          · simp only [List.cons_append, List.nil_append, List.mem_cons,
              List.not_mem_nil, or_false] at h
            rcases h with h2 | h2 | h2 | h2 | h2 | h2 <;> subst h2 <;> rfl
          · exact mainBody_no_write e h

theorem mainInner_head? {ρ γ δ : Type} (fns : VrdEvalFns ρ γ δ)
    (rc : String → Except String (List (Row ρ)))
    (rlm : String → Except String (List (String × Int)))
    (b l p c r d n : String) (L : LoggerState) :
    (mainInner fns rc rlm b l p c r d n L).1.head? =
      some (Event.loggerInit d n) := by
  unfold mainInner
  split
  · rfl
  · split
    · rfl
    · split
      · rfl
      · split
        · rfl
        · simp

/-- Claim C10: the required output-metrics path is consumed only through the
derived logger directory (its dirname) and run name (its basename with the
`.json` suffix split off): the trace contains no file-write event at any
path, two paths with equal derived directory and run name produce identical
runs, and the first action of every run is creating the logger from the two
derived strings. -/
theorem claim_C10_output_path_frame {ρ γ δ : Type} (fns : VrdEvalFns ρ γ δ)
    (rc : String → Except String (List (Row ρ)))
    (rlm : String → Except String (List (String × Int)))
    (b l p c r pm1 pm2 : String) (L : LoggerState)
    (h1 : posixDirname pm1 = posixDirname pm2)
    (h2 : splitDotJsonHead (posixBasename pm1) =
      splitDotJsonHead (posixBasename pm2)) :
    (∀ e ∈ (Driver.main fns rc rlm ⟨b, l, p, c, r, pm1⟩ L).1,
      e.isWriteFile = false) ∧
    Driver.main fns rc rlm ⟨b, l, p, c, r, pm1⟩ L =
      Driver.main fns rc rlm ⟨b, l, p, c, r, pm2⟩ L ∧
    (Driver.main fns rc rlm ⟨b, l, p, c, r, pm1⟩ L).1.head? =
      some (Event.loggerInit (posixDirname pm1)
        (splitDotJsonHead (posixBasename pm1))) := by
  refine ⟨?_, ?_, ?_⟩
  · intro e he
    exact mainInner_no_write e he
  · show mainInner fns rc rlm b l p c r (posixDirname pm1)
        (splitDotJsonHead (posixBasename pm1)) L =
      mainInner fns rc rlm b l p c r (posixDirname pm2)
        (splitDotJsonHead (posixBasename pm2)) L
    rw [h1, h2]
  · exact mainInner_head? fns rc rlm b l p c r _ _ L

/-- Claim C8: the command-line interface declares exactly the six flags for
the groundtruth boxes file, groundtruth labels file, predictions file, class
label map, relationship label map and output metrics path, all required and
none optional; argument parsing succeeds exactly when every flag is
supplied; and the process exits non-zero when a required flag is missing or
when any of the five input files is absent or fails to parse (the read
error propagates out of `main` uncaught). -/
theorem claim_C8_cli_contract :
    (cliFlags.map Prod.fst =
      ["--input_annotations_boxes", "--input_annotations_labels",
       "--input_predictions", "--input_class_labelmap",
       "--input_relationship_labelmap", "--output_metrics"] ∧
     cliFlags.length = 6 ∧ ∀ f ∈ cliFlags, f.2 = true) ∧
    (∀ provided : List (String × String),
      (parseArgs provided).isSome =
        cliFlags.all (fun f => (dget? provided f.1).isSome)) ∧
    (∀ (ρ γ δ : Type) (fns : VrdEvalFns ρ γ δ)
        (rc : String → Except String (List (Row ρ)))
        (rlm : String → Except String (List (String × Int)))
        (provided : List (String × String)) (L : LoggerState),
      parseArgs provided = none → runScript fns rc rlm provided L ≠ 0) ∧
    (∀ (ρ γ δ : Type) (fns : VrdEvalFns ρ γ δ)
        (rc : String → Except String (List (Row ρ)))
        (rlm : String → Except String (List (String × Int)))
        (provided : List (String × String)) (args : Args) (L : LoggerState)
        (e : String),
      parseArgs provided = some args →
      (Driver.main fns rc rlm args L).2 = Except.error e →
      runScript fns rc rlm provided L ≠ 0) ∧
    (∀ (ρ γ δ : Type) (fns : VrdEvalFns ρ γ δ)
        (rc : String → Except String (List (Row ρ)))
        (rlm : String → Except String (List (String × Int)))
        (args : Args) (L : LoggerState) (e : String),
      rc args.input_annotations_boxes = Except.error e →
      (Driver.main fns rc rlm args L).2 = Except.error e) ∧
    (∀ (ρ γ δ : Type) (fns : VrdEvalFns ρ γ δ)
        (rc : String → Except String (List (Row ρ)))
        (rlm : String → Except String (List (String × Int)))
        (args : Args) (L : LoggerState) (br : List (Row ρ)) (e : String),
      rc args.input_annotations_boxes = Except.ok br →
      rc args.input_annotations_labels = Except.error e →
      (Driver.main fns rc rlm args L).2 = Except.error e) ∧
    (∀ (ρ γ δ : Type) (fns : VrdEvalFns ρ γ δ)
        (rc : String → Except String (List (Row ρ)))
        (rlm : String → Except String (List (String × Int)))
        (args : Args) (L : LoggerState) (br lr : List (Row ρ)) (e : String),
      rc args.input_annotations_boxes = Except.ok br →
      rc args.input_annotations_labels = Except.ok lr →
      rlm args.input_class_labelmap = Except.error e →
      (Driver.main fns rc rlm args L).2 = Except.error e) ∧
    (∀ (ρ γ δ : Type) (fns : VrdEvalFns ρ γ δ)
        (rc : String → Except String (List (Row ρ)))
        (rlm : String → Except String (List (String × Int)))
        (args : Args) (L : LoggerState) (br lr : List (Row ρ))
        (ci : List (String × Int)) (e : String),
      rc args.input_annotations_boxes = Except.ok br →
      rc args.input_annotations_labels = Except.ok lr →
      rlm args.input_class_labelmap = Except.ok ci →
      rlm args.input_relationship_labelmap = Except.error e →
      (Driver.main fns rc rlm args L).2 = Except.error e) ∧
    (∀ (ρ γ δ : Type) (fns : VrdEvalFns ρ γ δ)
        (rc : String → Except String (List (Row ρ)))
        (rlm : String → Except String (List (String × Int)))
        (args : Args) (L : LoggerState) (br lr : List (Row ρ))
        (ci ri : List (String × Int)) (e : String),
      rc args.input_annotations_boxes = Except.ok br →
      rc args.input_annotations_labels = Except.ok lr →
      rlm args.input_class_labelmap = Except.ok ci →
      rlm args.input_relationship_labelmap = Except.ok ri →
      rc args.input_predictions = Except.error e →
      (Driver.main fns rc rlm args L).2 = Except.error e) := by
  refine ⟨⟨rfl, rfl, by decide⟩, ?_, ?_, ?_, ?_, ?_, ?_, ?_, ?_⟩
  · intro provided
    unfold parseArgs cliFlags
    simp only [List.all_cons, List.all_nil]
    cases dget? provided "--input_annotations_boxes" <;>
    cases dget? provided "--input_annotations_labels" <;>
    cases dget? provided "--input_predictions" <;>
    cases dget? provided "--input_class_labelmap" <;>
    cases dget? provided "--input_relationship_labelmap" <;>
    cases dget? provided "--output_metrics" <;> rfl
  · intro ρ γ δ fns rc rlm provided L hpa
    unfold runScript
    rw [hpa]
    simp
  · intro ρ γ δ fns rc rlm provided args L e hpa hm
    unfold runScript
    rw [hpa]
    simp [hm]
  · intro ρ γ δ fns rc rlm args L e hb
    simp [Driver.main, mainInner, hb]
  · intro ρ γ δ fns rc rlm args L br e hb hl
    simp [Driver.main, mainInner, hb, hl]
  · intro ρ γ δ fns rc rlm args L br lr e hb hl hc
    simp [Driver.main, mainInner, hb, hl, hc]
  · intro ρ γ δ fns rc rlm args L br lr ci e hb hl hc hr
    simp [Driver.main, mainInner, hb, hl, hc, hr]
  · intro ρ γ δ fns rc rlm args L br lr ci ri e hb hl hc hr hp
    simp [Driver.main, mainInner, mainBody, hb, hl, hc, hr, hp]

/-! ## Concrete instantiations used by the witnesses -/

def wRelMetrics : List (String × ℚ) :=
  [("VRDMetric_Relationships_mAP@0.5IOU", 1),
   ("VRDMetric_Relationships_Recall@50@0.5IOU", 1)]

def wPhrMetrics : List (String × ℚ) :=
  [("VRDMetric_Phrases_mAP@0.5IOU", 1)]

/-- A concrete evaluator behavior: opaque dictionaries and fixed metric
reports containing the keys the driver reads. -/
def wFns : VrdEvalFns Unit Unit Unit :=
  ⟨fun _ _ _ => (), fun _ _ _ => (), fun _ _ _ => wRelMetrics,
   fun _ _ _ => wPhrMetrics⟩

def wRows : List (Row Unit) := [⟨"imgB", ()⟩, ⟨"imgA", ()⟩]

def wCsv : String → Except String (List (Row Unit)) := fun _ => Except.ok wRows

def wItems : List (String × Int) := [("cat", 3), ("dog", 4)]

def wLM : String → Except String (List (String × Int)) :=
  fun _ => Except.ok wItems

def wArgs : Args :=
  ⟨"boxes.csv", "labels.csv", "preds.csv", "class.pbtxt", "rel.pbtxt",
   "exp/run.json"⟩

def wLogger : LoggerState := ⟨[]⟩

/-- The result of the concrete run driven by the fixtures above. -/
def wRes : MainResult :=
  ⟨⟨[("eval_epoch.VRDMetric_Relationships_mAP@0.5IOU", [1]),
     ("eval_epoch.VRDMetric_Relationships_Recall@50@0.5IOU", [1]),
     ("eval_epoch.VRDMetric_Phrases_mAP@0.5IOU", [1]),
     ("eval_epoch.score",
      [(1 : ℚ) * (0.4 : ℚ) + (1 : ℚ) * (0.2 : ℚ) + (1 : ℚ) * (0.4 : ℚ)]),
     ("eval_epoch.epoch", [((0 : ℕ) : ℚ)])]⟩,
   (1 : ℚ) * (0.4 : ℚ) + (1 : ℚ) * (0.2 : ℚ) + (1 : ℚ) * (0.4 : ℚ),
   wRelMetrics, wPhrMetrics⟩

example : (Driver.main wFns wCsv wLM wArgs wLogger).2 = Except.ok wRes := rfl

/-- Claim C1 witness: the concrete run logs the weighted composite score. -/
theorem claim_C1_composite_score_witness :
    Event.logValue "eval_epoch.score" wRes.score ∈
      (Driver.main wFns wCsv wLM wArgs wLogger).1 :=
  (claim_C1_composite_score wFns wCsv wLM wArgs wLogger wRes rfl).1

/-- Claim C2 witness: the concrete run calls each evaluator's `evaluate()`
exactly once. -/
theorem claim_C2_call_order_witness :
    ((Driver.main wFns wCsv wLM wArgs wLogger).1.filter
      (Event.isEvaluateCallOf EvalKind.relation)).length = 1 ∧
    ((Driver.main wFns wCsv wLM wArgs wLogger).1.filter
      (Event.isEvaluateCallOf EvalKind.phrase)).length = 1 :=
  ⟨(claim_C2_call_order wFns wCsv wLM wArgs wLogger wRows wRows wRows wItems
      wItems rfl rfl rfl rfl rfl).2.2.1,
   (claim_C2_call_order wFns wCsv wLM wArgs wLogger wRows wRows wRows wItems
      wItems rfl rfl rfl rfl rfl).2.2.2⟩

/-- Claim C3 witness: the concrete run's metric mapping carries the
composite key. -/
theorem claim_C3_metric_keys_witness :
    ("score", wRes.score) ∈ producedMetrics wRes :=
  (claim_C3_metric_keys wFns wCsv wLM wArgs wLogger wRes rfl).2.2.2

/-- Claim C4 witness: in the concrete run both evaluators receive the same
ingestion sequence. -/
theorem claim_C4_identical_ingestion_witness :
    ingestedSeq EvalKind.relation (Driver.main wFns wCsv wLM wArgs wLogger).1 =
      ingestedSeq EvalKind.phrase
        (Driver.main wFns wCsv wLM wArgs wLogger).1 :=
  (claim_C4_identical_ingestion wFns wCsv wLM wArgs wLogger wRows wRows wRows
    wItems wItems rfl rfl rfl rfl rfl).1

/-- Claim C6 witness: the concrete labelmap loads as one entry per item, and
the relation evaluator's `evaluate` receives the swapped relationship map. -/
theorem claim_C6_labelmaps_witness :
    _load_labelmap wItems = wItems ∧
    Event.evaluateCall EvalKind.relation
        (_swap_labelmap_dict (_load_labelmap wItems)) ∈
      (Driver.main wFns wCsv wLM wArgs wLogger).1 :=
  ⟨((claim_C6_labelmaps wFns wCsv wLM wArgs wLogger wRows wRows wRows wItems
      wItems rfl rfl rfl rfl rfl).1 wItems (by decide)).1,
   (claim_C6_labelmaps wFns wCsv wLM wArgs wLogger wRows wRows wRows wItems
      wItems rfl rfl rfl rfl rfl).2.1⟩

/-- Claim C7 witness: in the concrete run the groundtruth image ids ingested
by the two evaluators are duplicate-free. -/
theorem claim_C7_unique_groundtruth_images_witness :
    (gtImageIds EvalKind.relation
      (Driver.main wFns wCsv wLM wArgs wLogger).1).Nodup ∧
    (gtImageIds EvalKind.phrase
      (Driver.main wFns wCsv wLM wArgs wLogger).1).Nodup :=
  ⟨(claim_C7_unique_groundtruth_images wFns wCsv wLM wArgs wLogger wRows wRows
      wRows wItems wItems rfl rfl rfl rfl rfl).1,
   (claim_C7_unique_groundtruth_images wFns wCsv wLM wArgs wLogger wRows wRows
      wRows wItems wItems rfl rfl rfl rfl rfl).2.1⟩

/-- Claim C8 witness: with no flags supplied the script exits non-zero. -/
theorem claim_C8_cli_contract_witness :
    runScript wFns wCsv wLM [] wLogger ≠ 0 :=
  claim_C8_cli_contract.2.2.1 Unit Unit Unit wFns wCsv wLM [] wLogger rfl

/-- Claim C10 witness: two concrete output-metrics paths with the same
derived directory and run name give identical runs. -/
theorem claim_C10_output_path_frame_witness :
    Driver.main wFns wCsv wLM
        ⟨"boxes.csv", "labels.csv", "preds.csv", "class.pbtxt", "rel.pbtxt",
         "exp/run.json"⟩ wLogger =
      Driver.main wFns wCsv wLM
        ⟨"boxes.csv", "labels.csv", "preds.csv", "class.pbtxt", "rel.pbtxt",
         "exp/run.json.bak"⟩ wLogger :=
  (claim_C10_output_path_frame wFns wCsv wLM "boxes.csv" "labels.csv"
    "preds.csv" "class.pbtxt" "rel.pbtxt" "exp/run.json" "exp/run.json.bak"
    wLogger rfl rfl).2.1
